import Mathlib

/-!
Verification of the `arch-testing` harness: a shallow embedding of the
test-orchestration lifecycle (config clamping, dependency-ordered setup,
readiness probing with retry, the test phase and unconditional teardown)
translated from `src/test_config.rs`, `src/test_runner.rs` and the three
container orchestrators in `src/containers/`.

Durations are modelled in whole seconds as `Nat` (the source uses
`std::time::Duration` built with `Duration::from_secs`).  External effects
(container launch, RPC client construction, RPC probes, wallet fixture calls,
container stop) are modelled by oracles recording the outcome each call would
have; the embedded functions replay the source's control flow over those
oracles and record which operations were attempted.
-/

/-- From `test_config.rs`: `MAX_SETUP_TIMEOUT: Duration = Duration::from_secs(120)`. -/
def MAX_SETUP_TIMEOUT : Nat := 120

/-- From `test_config.rs`: `MAX_TEST_TIMEOUT: Duration = Duration::from_secs(300)`. -/
def MAX_TEST_TIMEOUT : Nat := 300

/-- From `test_config.rs`: `DEFAULT_SETUP_TIMEOUT: Duration = Duration::from_secs(15)`. -/
def DEFAULT_SETUP_TIMEOUT : Nat := 15

/-- From `test_config.rs`: `DEFAULT_TEST_TIMEOUT: Duration = Duration::from_secs(30)`. -/
def DEFAULT_TEST_TIMEOUT : Nat := 30

/-- From `containers/bitcoin_container.rs`: `BitcoinContainerConfig`. -/
structure BitcoinContainerConfig where
  container_name : String
  image_name : String
  image_tag : String
  rpc_port : Nat
  rpc_user : String
  rpc_password : String
  tcp_port : Nat
  startup_timeout : Nat
deriving DecidableEq

/-- From `containers/bitcoin_container.rs`: `impl Default for BitcoinContainerConfig`
    (constants `DEFAULT_CONTAINER_NAME` .. `DEFAULT_TCP_PORT` inlined). -/
def BitcoinContainerConfig.default : BitcoinContainerConfig where
  container_name := "arch-testing-bitcoin-container"
  image_name := "bitcoin/bitcoin"
  image_tag := "29.0"
  rpc_port := 18443
  rpc_user := "bitcoind_username"
  rpc_password := "bitcoind_password"
  startup_timeout := 60
  tcp_port := 18444

/-- From `containers/titan_container.rs`: `TitanContainerConfig`. -/
structure TitanContainerConfig where
  container_name : String
  image_name : String
  image_tag : String
  http_port : Nat
  tcp_port : Nat
  startup_timeout : Nat
deriving DecidableEq

/-- From `containers/titan_container.rs`: `impl Default for TitanContainerConfig`. -/
def TitanContainerConfig.default : TitanContainerConfig where
  container_name := "arch-testing-titan-container"
  image_name := "ghcr.io/saturnbtc/titan"
  image_tag := "latest"
  http_port := 3030
  tcp_port := 8080
  startup_timeout := 60

/-- From `containers/local_validator_container.rs`: `LocalValidatorContainerConfig`. -/
structure LocalValidatorContainerConfig where
  container_name : String
  image_name : String
  image_tag : String
  rpc_port : Nat
  websocket_port : Nat
  startup_timeout : Nat
deriving DecidableEq

/-- From `containers/local_validator_container.rs`: `impl Default for LocalValidatorContainerConfig`. -/
def LocalValidatorContainerConfig.default : LocalValidatorContainerConfig where
  container_name := "arch-testing-local-validator-container"
  image_name := "ghcr.io/arch-network/local_validator"
  image_tag := "0.5.8"
  rpc_port := 9002
  websocket_port := 29002
  startup_timeout := 60

/-- From `test_config.rs`: `TestRunnerConfig`. -/
structure TestRunnerConfig where
  bitcoin_image_name : String
  bitcoin_image_tag : String
  titan_image_name : String
  titan_image_tag : String
  validator_image_name : String
  validator_image_tag : String
  setup_timeout : Nat
  test_timeout : Nat
  bitcoin_rpc_port : Nat
  titan_http_port : Nat
  titan_tcp_port : Nat
  validator_rpc_port : Nat
  validator_websocket_port : Nat
deriving DecidableEq

/-- From `test_config.rs`: `TestRunnerConfig::new()` (always returns `Ok`, so the
    `Result` wrapper is dropped). -/
def TestRunnerConfig.new : TestRunnerConfig where
  bitcoin_image_name := BitcoinContainerConfig.default.image_name
  bitcoin_image_tag := BitcoinContainerConfig.default.image_tag
  bitcoin_rpc_port := BitcoinContainerConfig.default.rpc_port
  titan_http_port := TitanContainerConfig.default.http_port
  titan_image_name := TitanContainerConfig.default.image_name
  titan_image_tag := TitanContainerConfig.default.image_tag
  titan_tcp_port := TitanContainerConfig.default.tcp_port
  validator_image_name := LocalValidatorContainerConfig.default.image_name
  validator_image_tag := LocalValidatorContainerConfig.default.image_tag
  validator_rpc_port := LocalValidatorContainerConfig.default.rpc_port
  validator_websocket_port := LocalValidatorContainerConfig.default.websocket_port
  setup_timeout := DEFAULT_SETUP_TIMEOUT
  test_timeout := DEFAULT_TEST_TIMEOUT

/-- From `test_config.rs`: `impl From<TestRunnerConfig> for BitcoinContainerConfig`. -/
def BitcoinContainerConfig.fromTestRunnerConfig (config : TestRunnerConfig) : BitcoinContainerConfig where
  container_name := BitcoinContainerConfig.default.container_name
  image_name := config.bitcoin_image_name
  image_tag := config.bitcoin_image_tag
  rpc_password := BitcoinContainerConfig.default.rpc_password
  rpc_port := config.bitcoin_rpc_port
  rpc_user := BitcoinContainerConfig.default.rpc_user
  startup_timeout := config.setup_timeout
  tcp_port := BitcoinContainerConfig.default.tcp_port

/-- From `test_config.rs`: `impl From<TestRunnerConfig> for TitanContainerConfig`. -/
def TitanContainerConfig.fromTestRunnerConfig (config : TestRunnerConfig) : TitanContainerConfig where
  container_name := TitanContainerConfig.default.container_name
  image_name := config.titan_image_name
  image_tag := config.titan_image_tag
  http_port := config.titan_http_port
  tcp_port := config.titan_tcp_port
  startup_timeout := config.setup_timeout

/-- From `test_config.rs`: `impl From<TestRunnerConfig> for LocalValidatorContainerConfig`. -/
def LocalValidatorContainerConfig.fromTestRunnerConfig (config : TestRunnerConfig) : LocalValidatorContainerConfig where
  container_name := LocalValidatorContainerConfig.default.container_name
  image_name := config.validator_image_name
  image_tag := config.validator_image_tag
  rpc_port := config.validator_rpc_port
  websocket_port := config.validator_websocket_port
  startup_timeout := config.setup_timeout

/-- From `test_runner.rs` lines 89-98 (inside `setup_with_timeout`): the effective
    setup budget together with whether the capping warning is emitted.
    Source: `if config.setup_timeout > MAX_SETUP_TIMEOUT { warn; MAX_SETUP_TIMEOUT } else { config.setup_timeout }`. -/
def TestRunner.effective_setup_timeout (config : TestRunnerConfig) : Nat × Bool :=
  if MAX_SETUP_TIMEOUT < config.setup_timeout then
    (MAX_SETUP_TIMEOUT, true)
  else
    (config.setup_timeout, false)

/-- From `test_runner.rs` lines 134-143 (inside `test_with_timeout`): the effective
    test budget together with whether the capping warning is emitted. -/
def TestRunner.effective_test_timeout (config : TestRunnerConfig) : Nat × Bool :=
  if MAX_TEST_TIMEOUT < config.test_timeout then
    (MAX_TEST_TIMEOUT, true)
  else
    (config.test_timeout, false)

/-- C3: For every caller-supplied configuration, the effective setup and test budgets
    equal the hard ceiling (`MAX_SETUP_TIMEOUT`, resp. `MAX_TEST_TIMEOUT`) exactly when
    the requested duration exceeds that ceiling — in which case the warning is emitted —
    and equal the requested duration with no warning otherwise.  Stated as: the effective
    value is the minimum of request and ceiling, and the warning fires iff the request
    exceeds the ceiling. -/
theorem timeout_clamping_policy (config : TestRunnerConfig) :
    (TestRunner.effective_setup_timeout config).1 = min config.setup_timeout MAX_SETUP_TIMEOUT
    ∧ ((TestRunner.effective_setup_timeout config).2 = true ↔ MAX_SETUP_TIMEOUT < config.setup_timeout)
    ∧ (TestRunner.effective_test_timeout config).1 = min config.test_timeout MAX_TEST_TIMEOUT
    ∧ ((TestRunner.effective_test_timeout config).2 = true ↔ MAX_TEST_TIMEOUT < config.test_timeout) := by
  unfold TestRunner.effective_setup_timeout TestRunner.effective_test_timeout
  constructor
  · split <;> omega
  constructor
  · split <;> simp <;> omega
  constructor
  · split <;> omega
  · split <;> simp <;> omega

/-- Witness for C3 at concrete configurations: a request of 500 s is clamped to the
    120 s setup ceiling with a warning, and the default 15 s request passes through
    unchanged without one. -/
theorem timeout_clamping_policy_witness :
    (TestRunner.effective_setup_timeout { TestRunnerConfig.new with setup_timeout := 500 }).1 = 120
    ∧ (TestRunner.effective_setup_timeout { TestRunnerConfig.new with setup_timeout := 500 }).2 = true
    ∧ (TestRunner.effective_setup_timeout TestRunnerConfig.new).1 = 15
    ∧ (TestRunner.effective_setup_timeout TestRunnerConfig.new).2 = false := by
  have h1 := timeout_clamping_policy { TestRunnerConfig.new with setup_timeout := 500 }
  have h2 := timeout_clamping_policy TestRunnerConfig.new
  refine ⟨?_, ?_, ?_, ?_⟩
  · simpa using h1.1
  · exact h1.2.1.mpr (by decide)
  · simpa using h2.1
  · simp only [TestRunnerConfig.new] at h2
    by_contra hb
    exact absurd (h2.2.1.mp (by revert hb; decide)) (by decide)

/-- The `backoff` crate's `ExponentialBackoff::default()` terminates retrying once
    `max_elapsed_time` (15 minutes = 900 s) has elapsed; both `wait_for_rpc_ready`
    functions build their policy with this default, independent of any configured
    startup budget.  Modelled abstractly as a retry allowance in deadline units. -/
def backoffDefaultMaxElapsed : Nat := 900

/-- From the `backoff` crate's `retry` as used by both `wait_for_rpc_ready`
    functions: every probe error is marked `backoff::Error::transient`, so the loop
    retries on any error whatsoever and stops only when the probe succeeds or the
    policy's deadline allowance (`fuel`) is exhausted, in which case the last probe
    error is returned. -/
def backoff_retry (probe : Nat → Except String Unit) : Nat → Nat → Except String Unit
  | fuel, attempt =>
    match probe attempt with
    | Except.ok _ => Except.ok ()
    | Except.error e =>
      match fuel with
      | 0 => Except.error e
      | f + 1 => backoff_retry probe f (attempt + 1)

/-- From `containers/bitcoin_container.rs` lines 206-236: `wait_for_rpc_ready` retries
    `get_block_count` under the default backoff policy and, on giving up, wraps the
    last probe error in a message naming the timeout condition. -/
def bitcoin_wait_for_rpc_ready (probe : Nat → Except String Unit) (fuel : Nat) : Except String Unit :=
  match backoff_retry probe fuel 0 with
  | Except.ok _ => Except.ok ()
  | Except.error e =>
    Except.error ("Bitcoin RPC server failed to become ready within timeout: " ++ e)

/-- From `containers/local_validator_container.rs` lines 172-190: `wait_for_rpc_ready`
    retries `get_block_count` under the default backoff policy; `.context(...)` attaches
    the timeout message to the last probe error. -/
def validator_wait_for_rpc_ready (probe : Nat → Except String Unit) (fuel : Nat) : Except String Unit :=
  match backoff_retry probe fuel 0 with
  | Except.ok _ => Except.ok ()
  | Except.error e =>
    Except.error ("LocalValidator RPC server failed to become ready within timeout: " ++ e)

lemma backoff_retry_ok_of_eventually_ready (probe : Nat → Except String Unit) :
    ∀ (k fuel i : Nat), k ≤ fuel →
      (∀ j, j < k → ∃ e, probe (i + j) = Except.error e) →
      probe (i + k) = Except.ok () →
      backoff_retry probe fuel i = Except.ok () := by
  intro k
  induction k with
  | zero =>
    intro fuel i _ _ hready
    simp only [Nat.add_zero] at hready
    unfold backoff_retry
    rw [hready]
  | succ m ih =>
    intro fuel i hk hbefore hready
    obtain ⟨f, rfl⟩ : ∃ f, fuel = f + 1 := ⟨fuel - 1, by omega⟩
    obtain ⟨e, he⟩ := hbefore 0 (Nat.succ_pos m)
    simp only [Nat.add_zero] at he
    unfold backoff_retry
    rw [he]
    exact ih f (i + 1) (by omega)
      (fun j hj => by
        have := hbefore (j + 1) (by omega)
        simpa [Nat.add_assoc, Nat.add_comm 1 j] using this)
      (by simpa [Nat.add_assoc, Nat.add_comm 1 m] using hready)

lemma backoff_retry_error_of_never_ready (probe : Nat → Except String Unit)
    (hall : ∀ i, ∃ e, probe i = Except.error e) :
    ∀ (fuel i : Nat), ∃ e, backoff_retry probe fuel i = Except.error e
      ∧ probe (i + fuel) = Except.error e := by
  intro fuel
  induction fuel with
  | zero =>
    intro i
    obtain ⟨e, he⟩ := hall i
    refine ⟨e, ?_, by simpa using he⟩
    unfold backoff_retry
    rw [he]
  | succ f ih =>
    intro i
    obtain ⟨e0, he0⟩ := hall i
    obtain ⟨e, he, hlast⟩ := ih (i + 1)
    refine ⟨e, ?_, ?_⟩
    · unfold backoff_retry
      rw [he0]
      exact he
    · have : i + 1 + f = i + (f + 1) := by omega
      rwa [this] at hlast

/-- C4: The readiness probe has no class of error that terminates retrying other than
    the deadline: (1) any probe error with retry allowance left simply causes another
    attempt, whatever the error is; (2) a probe that is not ready for finitely many
    attempts and then ready before the deadline yields a successful wait (hence a
    successful `start`); (3) a probe that is never ready within the deadline yields a
    failure naming the timeout condition and carrying the last probe error — for both
    the bitcoin and validator provers. -/
theorem wait_for_rpc_ready_retries_until_deadline :
    (∀ (probe : Nat → Except String Unit) (f i : Nat) (e : String),
      probe i = Except.error e →
      backoff_retry probe (f + 1) i = backoff_retry probe f (i + 1))
    ∧ (∀ (probe : Nat → Except String Unit) (fuel k : Nat), k ≤ fuel →
      (∀ j, j < k → ∃ e, probe j = Except.error e) →
      probe k = Except.ok () →
      bitcoin_wait_for_rpc_ready probe fuel = Except.ok ()
        ∧ validator_wait_for_rpc_ready probe fuel = Except.ok ())
    ∧ (∀ (probe : Nat → Except String Unit) (fuel : Nat),
      (∀ i, ∃ e, probe i = Except.error e) →
      ∃ e, probe fuel = Except.error e
        ∧ bitcoin_wait_for_rpc_ready probe fuel
            = Except.error ("Bitcoin RPC server failed to become ready within timeout: " ++ e)
        ∧ validator_wait_for_rpc_ready probe fuel
            = Except.error ("LocalValidator RPC server failed to become ready within timeout: " ++ e)) := by
  refine ⟨?_, ?_, ?_⟩
  · intro probe f i e he
    conv_lhs => unfold backoff_retry
    rw [he]
  · intro probe fuel k hk hbefore hready
    have h := backoff_retry_ok_of_eventually_ready probe k fuel 0 hk
      (fun j hj => by simpa using hbefore j hj) (by simpa using hready)
    refine ⟨?_, ?_⟩
    · unfold bitcoin_wait_for_rpc_ready
      rw [h]
    · unfold validator_wait_for_rpc_ready
      rw [h]
  · intro probe fuel hall
    obtain ⟨e, he, hlast⟩ := backoff_retry_error_of_never_ready probe hall fuel 0
    refine ⟨e, by simpa using hlast, ?_, ?_⟩
    · unfold bitcoin_wait_for_rpc_ready
      rw [he]
    · unfold validator_wait_for_rpc_ready
      rw [he]

/-- A concrete probe for the C4 witness: connection refused on the first two attempts,
    ready from the third on. -/
def probeReadyAtTwo : Nat → Except String Unit :=
  fun i => if i < 2 then Except.error "connection refused" else Except.ok ()

/-- A concrete probe for the C4 witness that never becomes ready. -/
def probeNeverReady : Nat → Except String Unit :=
  fun _ => Except.error "malformed credentials"

/-- Witness for C4: with the probe ready at attempt 2 under an allowance of 5 both
    waits succeed, and with a probe that always fails (with an error that is not a
    connectivity error) the waits fail naming the timeout and carrying that error. -/
theorem wait_for_rpc_ready_retries_until_deadline_witness :
    bitcoin_wait_for_rpc_ready probeReadyAtTwo 5 = Except.ok ()
    ∧ validator_wait_for_rpc_ready probeReadyAtTwo 5 = Except.ok ()
    ∧ bitcoin_wait_for_rpc_ready probeNeverReady 5
        = Except.error ("Bitcoin RPC server failed to become ready within timeout: "
            ++ "malformed credentials")
    ∧ validator_wait_for_rpc_ready probeNeverReady 5
        = Except.error ("LocalValidator RPC server failed to become ready within timeout: "
            ++ "malformed credentials") := by
  have hok := (wait_for_rpc_ready_retries_until_deadline.2.1 probeReadyAtTwo 5 2
    (by omega)
    (fun j hj => ⟨"connection refused", by
      unfold probeReadyAtTwo
      simp [hj]⟩)
    (by unfold probeReadyAtTwo; simp))
  have herr := wait_for_rpc_ready_retries_until_deadline.2.2 probeNeverReady 5
    (fun i => ⟨"malformed credentials", rfl⟩)
  obtain ⟨e, he, hb, hv⟩ := herr
  have he2 : (Except.error "malformed credentials" : Except String Unit) = Except.error e := he
  have he' : e = "malformed credentials" := (Except.error.inj he2).symm
  refine ⟨hok.1, hok.2, ?_, ?_⟩
  · rw [hb, he']
  · rw [hv, he']

/-- The operations a container orchestrator's `start` can perform, in the order the
    source performs them: launch the container, construct the RPC client, run the
    readiness prober, and (bitcoin only) the wallet fixture calls. -/
inductive StartStep where
  | launch
  | buildClient
  | probe
  | createWallet
  | getNewAddress
  | generateToAddress (blocks : Nat)
deriving DecidableEq

/-- Oracle for `BitcoinContainer::start`: outcome of each external call it makes. -/
structure BitcoinStartOracle where
  launchOk : Bool
  clientOk : Bool
  probe : Nat → Except String Unit
  createWalletOk : Bool
  getNewAddressOk : Bool
  generateOk : Bool

/-- From `containers/bitcoin_container.rs` lines 84-119: `BitcoinContainer::start` —
    `start_container`, `Client::new`, `wait_for_rpc_ready` (under the default backoff
    policy, not the configured startup budget), then the fixture: `create_wallet`,
    `get_new_address`, `generate_to_address(100, ..)`; every failure aborts with an
    error.  Returns the result together with the list of operations attempted. -/
def BitcoinContainer.start (o : BitcoinStartOracle) : Except String Unit × List StartStep :=
  if !o.launchOk then
    (Except.error "Failed to start Bitcoin container", [StartStep.launch])
  else if !o.clientOk then
    (Except.error "Failed to create rpc_client", [StartStep.launch, StartStep.buildClient])
  else
    match bitcoin_wait_for_rpc_ready o.probe backoffDefaultMaxElapsed with
    | Except.error e =>
      (Except.error e, [StartStep.launch, StartStep.buildClient, StartStep.probe])
    | Except.ok _ =>
      if !o.createWalletOk then
        (Except.error "Failed to create testwallet",
          [StartStep.launch, StartStep.buildClient, StartStep.probe, StartStep.createWallet])
      else if !o.getNewAddressOk then
        (Except.error "Failed to get new address",
          [StartStep.launch, StartStep.buildClient, StartStep.probe, StartStep.createWallet,
            StartStep.getNewAddress])
      else if !o.generateOk then
        (Except.error "Failed to generate to address",
          [StartStep.launch, StartStep.buildClient, StartStep.probe, StartStep.createWallet,
            StartStep.getNewAddress, StartStep.generateToAddress 100])
      else
        (Except.ok (),
          [StartStep.launch, StartStep.buildClient, StartStep.probe, StartStep.createWallet,
            StartStep.getNewAddress, StartStep.generateToAddress 100])

/-- Oracle for `TitanContainer::start`: only the launch (with its in-launcher
    "Synced to tip" log barrier) can fail; `TitanClient::new` is infallible. -/
structure TitanStartOracle where
  launchOk : Bool

/-- From `containers/titan_container.rs` lines 81-95: `TitanContainer::start` —
    `start_titan_container` (whose launcher waits for the "Synced to tip" log line
    within the startup budget), then `TitanClient::new`, then the handle is returned.
    No readiness prober is invoked against the client. -/
def TitanContainer.start (o : TitanStartOracle) : Except String Unit × List StartStep :=
  if !o.launchOk then
    (Except.error "Failed to start Titan container", [StartStep.launch])
  else
    (Except.ok (), [StartStep.launch, StartStep.buildClient])

/-- Oracle for `LocalValidatorContainer::start`: launch outcome and the probe's
    per-attempt outcomes; `AsyncArchRpcClient::new` is infallible. -/
structure ValidatorStartOracle where
  launchOk : Bool
  probe : Nat → Except String Unit

/-- From `containers/local_validator_container.rs` lines 69-84:
    `LocalValidatorContainer::start` — `start_local_validator_container`,
    `AsyncArchRpcClient::new`, `wait_for_rpc_ready` (under the default backoff
    policy), then the handle is returned. -/
def LocalValidatorContainer.start (o : ValidatorStartOracle) : Except String Unit × List StartStep :=
  if !o.launchOk then
    (Except.error "Failed to start local validator container", [StartStep.launch])
  else
    match validator_wait_for_rpc_ready o.probe backoffDefaultMaxElapsed with
    | Except.error e =>
      (Except.error e, [StartStep.launch, StartStep.buildClient, StartStep.probe])
    | Except.ok _ =>
      (Except.ok (), [StartStep.launch, StartStep.buildClient, StartStep.probe])

/-- Counterexample to C5: the titan (indexer) orchestrator's `start` returns its
    handle after a successful launch without ever invoking the readiness prober
    against its client — no probe step occurs in its operation trace. -/
theorem titan_start_without_probe_cex :
    (TitanContainer.start { launchOk := true }).1 = Except.ok ()
    ∧ StartStep.probe ∉ (TitanContainer.start { launchOk := true }).2 := by
  constructor
  · rfl
  · decide

/-- C5 (amended): the bitcoin and validator orchestrators' `start` invoke the
    readiness prober and return the handle only after every one of their steps
    (launch, client construction, probing, and — for bitcoin — the fixture calls)
    succeeded; the titan orchestrator's `start` performs no client probing and
    returns its handle after launch and client construction alone. -/
theorem start_probe_discipline (b : BitcoinStartOracle) (v : ValidatorStartOracle)
    (t : TitanStartOracle) :
    ((BitcoinContainer.start b).1 = Except.ok () →
      (BitcoinContainer.start b).2
          = [StartStep.launch, StartStep.buildClient, StartStep.probe, StartStep.createWallet,
              StartStep.getNewAddress, StartStep.generateToAddress 100]
        ∧ b.launchOk = true ∧ b.clientOk = true
        ∧ bitcoin_wait_for_rpc_ready b.probe backoffDefaultMaxElapsed = Except.ok ()
        ∧ b.createWalletOk = true ∧ b.getNewAddressOk = true ∧ b.generateOk = true)
    ∧ ((LocalValidatorContainer.start v).1 = Except.ok () →
      (LocalValidatorContainer.start v).2
          = [StartStep.launch, StartStep.buildClient, StartStep.probe]
        ∧ v.launchOk = true
        ∧ validator_wait_for_rpc_ready v.probe backoffDefaultMaxElapsed = Except.ok ())
    ∧ ((TitanContainer.start t).1 = Except.ok () →
      (TitanContainer.start t).2 = [StartStep.launch, StartStep.buildClient]
        ∧ StartStep.probe ∉ (TitanContainer.start t).2
        ∧ t.launchOk = true) := by
  refine ⟨?_, ?_, ?_⟩
  · intro hok
    unfold BitcoinContainer.start at hok ⊢
    cases hb : bitcoin_wait_for_rpc_ready b.probe backoffDefaultMaxElapsed <;>
      split_ifs at hok ⊢ <;> simp_all
  · intro hok
    unfold LocalValidatorContainer.start at hok ⊢
    cases hv : validator_wait_for_rpc_ready v.probe backoffDefaultMaxElapsed
    all_goals split_ifs at hok ⊢
    all_goals simp_all
  · intro hok
    unfold TitanContainer.start at hok ⊢
    split_ifs at hok ⊢
    all_goals simp_all

/-- A bitcoin-start oracle for witnesses: everything succeeds, the probe is ready on
    the first attempt. -/
def bitcoinOracleAllOk : BitcoinStartOracle where
  launchOk := true
  clientOk := true
  probe := fun _ => Except.ok ()
  createWalletOk := true
  getNewAddressOk := true
  generateOk := true

/-- Witness for C5 at concrete oracles: the successful bitcoin and validator starts
    do contain the probe step, and the successful titan start does not. -/
theorem start_probe_discipline_witness :
    StartStep.probe ∈ (BitcoinContainer.start bitcoinOracleAllOk).2
    ∧ StartStep.probe ∈ (LocalValidatorContainer.start { launchOk := true, probe := fun _ => Except.ok () }).2
    ∧ StartStep.probe ∉ (TitanContainer.start { launchOk := true }).2 := by
  have h := start_probe_discipline bitcoinOracleAllOk
    { launchOk := true, probe := fun _ => Except.ok () } { launchOk := true }
  have hb := h.1 (by rfl)
  have hv := h.2.1 (by rfl)
  have ht := h.2.2 (by rfl)
  refine ⟨?_, ?_, ht.2.1⟩
  · rw [hb.1]
    decide
  · rw [hv.1]
    decide

/-- C9: the bitcoin orchestrator's `start` performs its one-time fixture (wallet
    creation, address derivation, generation of 100 blocks) only after readiness
    succeeded — on success the operation trace is launch, client, probe, then the
    three fixture calls with exactly 100 blocks generated — and any fixture failure
    makes `start` return an error rather than a handle. -/
theorem bitcoin_fixture_failure_fatal (o : BitcoinStartOracle) :
    ((o.createWalletOk = false ∨ o.getNewAddressOk = false ∨ o.generateOk = false) →
      ∃ e, (BitcoinContainer.start o).1 = Except.error e)
    ∧ ((BitcoinContainer.start o).1 = Except.ok () →
      (BitcoinContainer.start o).2
        = [StartStep.launch, StartStep.buildClient, StartStep.probe, StartStep.createWallet,
            StartStep.getNewAddress, StartStep.generateToAddress 100]) := by
  constructor
  · intro hfail
    unfold BitcoinContainer.start
    cases hb : bitcoin_wait_for_rpc_ready o.probe backoffDefaultMaxElapsed <;>
      split_ifs <;> simp_all
  · intro hok
    unfold BitcoinContainer.start at hok ⊢
    cases hb : bitcoin_wait_for_rpc_ready o.probe backoffDefaultMaxElapsed <;>
      split_ifs at hok ⊢ <;> simp_all

/-- Witness for C9: with every step up to the fixture succeeding but wallet creation
    failing, `start` returns an error and no handle. -/
theorem bitcoin_fixture_failure_fatal_witness :
    ∃ e, (BitcoinContainer.start { bitcoinOracleAllOk with createWalletOk := false }).1
      = Except.error e := by
  exact (bitcoin_fixture_failure_fatal { bitcoinOracleAllOk with createWalletOk := false }).1
    (Or.inl rfl)

/-- The three service kinds, named after the container slots of `TestRunner`. -/
inductive Svc where
  | bitcoin
  | titan
  | validator
deriving DecidableEq

/-- From `test_runner.rs` lines 18-22: the `TestRunner` struct holds one optional
    handle per service kind (`bitcoin_container`, `titan_container`,
    `local_validator_conainer`, keeping the source's spelling).  A `true` slot models
    `Some(handle)`. -/
structure RunnerState where
  bitcoin_container : Bool
  titan_container : Bool
  local_validator_conainer : Bool
deriving DecidableEq

/-- The empty state built at the top of `run_with_config` (all slots `None`). -/
def RunnerState.initial : RunnerState where
  bitcoin_container := false
  titan_container := false
  local_validator_conainer := false

/-- Outcome a single container `start` would have in a given run: whether it would
    succeed and how many seconds it would take. -/
structure StartSpec where
  ok : Bool
  dur : Nat

/-- Oracle for the setup phase: the outcome each of the three `start` calls would
    have, in dependency order. -/
structure SetupOracle where
  bitcoin : StartSpec
  titan : StartSpec
  validator : StartSpec

/-- How the setup phase can end: all services up, a `start` returning an error
    (fail-fast `?`), or the enclosing `tokio::time::timeout` elapsing. -/
inductive SetupResult where
  | ok
  | failed (s : Svc)
  | timedOut
deriving DecidableEq

/-- From `test_runner.rs` lines 106-126 (`setup_internal`) run under the
    `tokio::time::timeout(budget, ..)` of `setup_with_timeout` (line 100):
    the three `start`s run strictly in order bitcoin, titan, validator; a slot is
    populated right after its `start` succeeds; a `start` error aborts the remaining
    steps (`?`); the enclosing timeout cancels the future at the deadline, so a start
    still in flight then never populates its slot.  Returns the state, the result,
    and the list of `start`s that were attempted (entered), in order. -/
def TestRunner.setup_internal (budget : Nat) (o : SetupOracle) (st : RunnerState) :
    RunnerState × SetupResult × List Svc :=
  if budget < o.bitcoin.dur then
    (st, SetupResult.timedOut, [Svc.bitcoin])
  else if !o.bitcoin.ok then
    (st, SetupResult.failed Svc.bitcoin, [Svc.bitcoin])
  else
    let st1 := { st with bitcoin_container := true }
    if budget < o.bitcoin.dur + o.titan.dur then
      (st1, SetupResult.timedOut, [Svc.bitcoin, Svc.titan])
    else if !o.titan.ok then
      (st1, SetupResult.failed Svc.titan, [Svc.bitcoin, Svc.titan])
    else
      let st2 := { st1 with titan_container := true }
      if budget < o.bitcoin.dur + o.titan.dur + o.validator.dur then
        (st2, SetupResult.timedOut, [Svc.bitcoin, Svc.titan, Svc.validator])
      else if !o.validator.ok then
        (st2, SetupResult.failed Svc.validator, [Svc.bitcoin, Svc.titan, Svc.validator])
      else
        ({ st2 with local_validator_conainer := true }, SetupResult.ok,
          [Svc.bitcoin, Svc.titan, Svc.validator])

/-- From `test_runner.rs` lines 88-104: `setup_with_timeout` clamps the configured
    setup budget and runs `setup_internal` under `tokio::time::timeout` with it. -/
def TestRunner.setup_with_timeout (config : TestRunnerConfig) (o : SetupOracle)
    (st : RunnerState) : RunnerState × SetupResult × List Svc :=
  TestRunner.setup_internal (TestRunner.effective_setup_timeout config).1 o st

/-- Outcome the test routine would have in a given run: whether it would return
    success and how many seconds it would take. -/
structure TestSpec where
  ok : Bool
  dur : Nat

/-- From `test_runner.rs` lines 128-156: `test_with_timeout` clamps the configured
    test budget and runs the test routine under `tokio::time::timeout`; the result is
    a success exactly when the routine finishes within the budget and returns `Ok`. -/
def TestRunner.test_with_timeout (config : TestRunnerConfig) (t : TestSpec) : Bool :=
  if (TestRunner.effective_test_timeout config).1 < t.dur then false else t.ok

/-- Oracle for the teardown pass: whether each container's `shutdown()` would
    succeed. -/
structure ShutdownOracle where
  validator : Bool
  titan : Bool
  bitcoin : Bool

/-- How teardown ends: either it walks all populated slots, or an `unwrap()` on a
    failed `shutdown()` unwinds (the teardown pass stops at that service). -/
inductive TeardownOutcome where
  | completed
  | panicked (s : Svc)
deriving DecidableEq

/-- From `test_runner.rs` lines 158-189: `teardown` takes each populated slot in
    order validator, titan, bitcoin and calls `shutdown().await.context(..).unwrap()`
    on it; an empty slot is skipped silently; a failed shutdown makes the `unwrap()`
    unwind, so the remaining slots are not visited.  Returns the outcome and the list
    of shutdown attempts, in order. -/
def TestRunner.teardown (st : RunnerState) (o : ShutdownOracle) :
    TeardownOutcome × List Svc :=
  let vAtt : List Svc := if st.local_validator_conainer then [Svc.validator] else []
  if st.local_validator_conainer && !o.validator then
    (TeardownOutcome.panicked Svc.validator, vAtt)
  else
    let tAtt : List Svc := if st.titan_container then [Svc.titan] else []
    if st.titan_container && !o.titan then
      (TeardownOutcome.panicked Svc.titan, vAtt ++ tAtt)
    else
      let bAtt : List Svc := if st.bitcoin_container then [Svc.bitcoin] else []
      if st.bitcoin_container && !o.bitcoin then
        (TeardownOutcome.panicked Svc.bitcoin, vAtt ++ tAtt ++ bAtt)
      else
        (TeardownOutcome.completed, vAtt ++ tAtt ++ bAtt)

/-- Oracle for a whole run. -/
structure RunOracle where
  setup : SetupOracle
  test : TestSpec
  shutdown : ShutdownOracle

/-- How `run_with_config` ends: normal return, the final
    `panic!("Test run failed: ..")` on a setup/test error, or an unwind out of a
    failed `unwrap()` inside `teardown`. -/
inductive RunOutcome where
  | success
  | testRunFailed
  | teardownUnwind (s : Svc)
deriving DecidableEq

/-- Everything observable about one `run_with_config` execution. -/
structure RunTrace where
  testInvoked : Bool
  stateAtTeardown : RunnerState
  shutdownAttempts : List Svc
  outcome : RunOutcome
deriving DecidableEq

/-- From `test_runner.rs` lines 34-60: `run_with_config` — build the empty state,
    run `setup_with_timeout`; on success run `test_with_timeout` (this is the only
    path on which the caller's routine is invoked); then always run `teardown`; a
    teardown unwind preempts the final check, which otherwise reports any
    setup/test error as a fatal failure of the run. -/
def TestRunner.run_with_config (config : TestRunnerConfig) (o : RunOracle) : RunTrace :=
  let s := TestRunner.setup_with_timeout config o.setup RunnerState.initial
  let st := s.1
  let setupRes := s.2.1
  let finalOk :=
    if setupRes = SetupResult.ok then TestRunner.test_with_timeout config o.test else false
  let td := TestRunner.teardown st o.shutdown
  { testInvoked := decide (setupRes = SetupResult.ok)
    stateAtTeardown := st
    shutdownAttempts := td.2
    outcome :=
      match td.1 with
      | TeardownOutcome.panicked s => RunOutcome.teardownUnwind s
      | TeardownOutcome.completed =>
        if finalOk then RunOutcome.success else RunOutcome.testRunFailed }

/-- A fully-populated runner state: all three services started. -/
def RunnerState.full : RunnerState where
  bitcoin_container := true
  titan_container := true
  local_validator_conainer := true

/-- Counterexample to C1: with all three slots populated and the validator's
    `shutdown()` failing, only the validator shutdown is attempted — the titan and
    bitcoin shutdowns are never reached, and the failure surfaces as an immediate
    unwind rather than after teardown completes. -/
theorem teardown_validator_failure_cex :
    (TestRunner.teardown RunnerState.full { validator := false, titan := true, bitcoin := true }).2
        = [Svc.validator]
    ∧ Svc.titan ∉ (TestRunner.teardown RunnerState.full
        { validator := false, titan := true, bitcoin := true }).2
    ∧ Svc.bitcoin ∉ (TestRunner.teardown RunnerState.full
        { validator := false, titan := true, bitcoin := true }).2
    ∧ (TestRunner.teardown RunnerState.full
        { validator := false, titan := true, bitcoin := true }).1
        = TeardownOutcome.panicked Svc.validator := by
  decide

/-- C1 (amended): if the validator handle is populated and its shutdown fails, the
    teardown pass stops right there — `unwrap()` unwinds with that single failure,
    the indexer's and ledger-source's shutdowns are not attempted, and no failure
    collection happens. -/
theorem teardown_validator_failure_panics (st : RunnerState) (o : ShutdownOracle)
    (hpop : st.local_validator_conainer = true) (hfail : o.validator = false) :
    TestRunner.teardown st o = (TeardownOutcome.panicked Svc.validator, [Svc.validator]) := by
  unfold TestRunner.teardown
  simp [hpop, hfail]

/-- Witness for C1's amended claim at a concrete state and shutdown oracle. -/
theorem teardown_validator_failure_panics_witness :
    TestRunner.teardown RunnerState.full { validator := false, titan := false, bitcoin := false }
      = (TeardownOutcome.panicked Svc.validator, [Svc.validator]) :=
  teardown_validator_failure_panics RunnerState.full
    { validator := false, titan := false, bitcoin := false } rfl rfl

/-- C2: under any budget, setup attempts the `start`s strictly in dependency order —
    the attempt list is a prefix of [bitcoin, titan, validator] — and a failure
    aborts the remaining steps: if the ledger-source's `start` fails, the titan and
    validator orchestrators are never invoked, and if titan's fails, the validator's
    is never invoked. -/
theorem setup_internal_fail_fast_order (budget : Nat) (o : SetupOracle) (st : RunnerState) :
    ((TestRunner.setup_internal budget o st).2.2 = [Svc.bitcoin]
      ∨ (TestRunner.setup_internal budget o st).2.2 = [Svc.bitcoin, Svc.titan]
      ∨ (TestRunner.setup_internal budget o st).2.2 = [Svc.bitcoin, Svc.titan, Svc.validator])
    ∧ (o.bitcoin.ok = false →
      (TestRunner.setup_internal budget o st).2.2 = [Svc.bitcoin])
    ∧ (o.titan.ok = false →
      Svc.validator ∉ (TestRunner.setup_internal budget o st).2.2) := by
  unfold TestRunner.setup_internal
  split_ifs <;> simp_all

/-- Witness for C2: with a failing ledger-source `start`, only bitcoin is attempted. -/
theorem setup_internal_fail_fast_order_witness :
    (TestRunner.setup_internal 120
      { bitcoin := { ok := false, dur := 5 }, titan := { ok := true, dur := 5 },
        validator := { ok := true, dur := 5 } } RunnerState.initial).2.2 = [Svc.bitcoin] :=
  (setup_internal_fail_fast_order 120
    { bitcoin := { ok := false, dur := 5 }, titan := { ok := true, dur := 5 },
      validator := { ok := true, dur := 5 } } RunnerState.initial).2.1 rfl

/-- The populated slots of a runner state, in teardown order. -/
def populatedSlots (st : RunnerState) : List Svc :=
  (if st.local_validator_conainer then [Svc.validator] else [])
    ++ (if st.titan_container then [Svc.titan] else [])
    ++ (if st.bitcoin_container then [Svc.bitcoin] else [])

lemma teardown_all_ok (st : RunnerState) (so : ShutdownOracle)
    (hv : so.validator = true) (ht : so.titan = true) (hb : so.bitcoin = true) :
    TestRunner.teardown st so = (TeardownOutcome.completed, populatedSlots st) := by
  unfold TestRunner.teardown populatedSlots
  simp [hv, ht, hb]

/-- Counterexample to C6: in an execution where all three slots are populated but the
    titan shutdown fails, the populated bitcoin slot is never attempted — teardown
    does not attempt shutdown for exactly the populated slots in every execution. -/
theorem teardown_skips_populated_slot_cex :
    RunnerState.full.bitcoin_container = true
    ∧ Svc.bitcoin ∉ (TestRunner.teardown RunnerState.full
        { validator := true, titan := false, bitcoin := true }).2 := by
  decide

/-- C6 (amended): at the moment teardown begins the slots reflect exactly which
    services successfully started within the (clamped) setup budget — bitcoin iff its
    start succeeded in time, titan iff bitcoin's and its own did, validator iff all
    three did — and, provided every attempted shutdown succeeds, teardown attempts
    shutdown exactly for the populated slots and silently skips the empty ones (a
    failing shutdown instead aborts the pass). -/
theorem slots_reflect_started_services (config : TestRunnerConfig) (o : SetupOracle)
    (so : ShutdownOracle) (hv : so.validator = true) (ht : so.titan = true)
    (hb : so.bitcoin = true) :
    ((TestRunner.setup_with_timeout config o RunnerState.initial).1.bitcoin_container = true
      ↔ o.bitcoin.ok = true
        ∧ o.bitcoin.dur ≤ (TestRunner.effective_setup_timeout config).1)
    ∧ ((TestRunner.setup_with_timeout config o RunnerState.initial).1.titan_container = true
      ↔ o.bitcoin.ok = true ∧ o.titan.ok = true
        ∧ o.bitcoin.dur + o.titan.dur ≤ (TestRunner.effective_setup_timeout config).1)
    ∧ ((TestRunner.setup_with_timeout config o RunnerState.initial).1.local_validator_conainer = true
      ↔ o.bitcoin.ok = true ∧ o.titan.ok = true ∧ o.validator.ok = true
        ∧ o.bitcoin.dur + o.titan.dur + o.validator.dur
            ≤ (TestRunner.effective_setup_timeout config).1)
    ∧ TestRunner.teardown (TestRunner.setup_with_timeout config o RunnerState.initial).1 so
        = (TeardownOutcome.completed,
            populatedSlots (TestRunner.setup_with_timeout config o RunnerState.initial).1) := by
  refine ⟨?_, ?_, ?_, teardown_all_ok _ so hv ht hb⟩ <;>
  · unfold TestRunner.setup_with_timeout TestRunner.setup_internal
    split_ifs <;> simp_all [RunnerState.initial] <;> omega

/-- C7: if setup fails or exceeds its deadline, the caller-supplied test routine is
    never invoked; and teardown is executed unconditionally — its input state and its
    shutdown attempts do not depend on the test outcome at all, and the attempts the
    run performs are exactly those of `teardown` on the state setup left behind. -/
theorem setup_failure_skips_test_body (config : TestRunnerConfig) (o : RunOracle) :
    ((TestRunner.setup_with_timeout config o.setup RunnerState.initial).2.1 ≠ SetupResult.ok →
      (TestRunner.run_with_config config o).testInvoked = false)
    ∧ (∀ t : TestSpec,
      (TestRunner.run_with_config config { o with test := t }).stateAtTeardown
          = (TestRunner.run_with_config config o).stateAtTeardown
        ∧ (TestRunner.run_with_config config { o with test := t }).shutdownAttempts
          = (TestRunner.run_with_config config o).shutdownAttempts)
    ∧ (TestRunner.run_with_config config o).shutdownAttempts
        = (TestRunner.teardown
            (TestRunner.run_with_config config o).stateAtTeardown o.shutdown).2 := by
  refine ⟨?_, fun t => ⟨rfl, rfl⟩, rfl⟩
  intro hne
  unfold TestRunner.run_with_config
  simp [hne]

/-- A run oracle whose ledger-source start fails at once; everything downstream would
    have succeeded. -/
def runOracleBitcoinFails : RunOracle where
  setup :=
    { bitcoin := { ok := false, dur := 1 }, titan := { ok := true, dur := 1 },
      validator := { ok := true, dur := 1 } }
  test := { ok := true, dur := 1 }
  shutdown := { validator := true, titan := true, bitcoin := true }

/-- Witness for C7: with the ledger-source start failing under the default config,
    the test routine is not invoked. -/
theorem setup_failure_skips_test_body_witness :
    (TestRunner.run_with_config TestRunnerConfig.new runOracleBitcoinFails).testInvoked
      = false :=
  (setup_failure_skips_test_body TestRunnerConfig.new runOracleBitcoinFails).1 (by decide)

/-- C8: when all three services start successfully within the effective setup budget
    and every shutdown succeeds, teardown shuts the three handles down exactly once
    each, in reverse dependency order validator, titan, bitcoin — whatever the test
    routine did — and the overall run succeeds exactly when the test did within its
    budget. -/
theorem teardown_reverse_order_full_run (config : TestRunnerConfig) (o : RunOracle)
    (hb : o.setup.bitcoin.ok = true) (ht : o.setup.titan.ok = true)
    (hv : o.setup.validator.ok = true)
    (hdur : o.setup.bitcoin.dur + o.setup.titan.dur + o.setup.validator.dur
      ≤ (TestRunner.effective_setup_timeout config).1)
    (hsv : o.shutdown.validator = true) (hst : o.shutdown.titan = true)
    (hsb : o.shutdown.bitcoin = true) :
    (TestRunner.run_with_config config o).shutdownAttempts
        = [Svc.validator, Svc.titan, Svc.bitcoin]
    ∧ ((TestRunner.run_with_config config o).outcome = RunOutcome.success
        ↔ TestRunner.test_with_timeout config o.test = true) := by
  have h1 : ¬ ((TestRunner.effective_setup_timeout config).1 < o.setup.bitcoin.dur) := by omega
  have h2 : ¬ ((TestRunner.effective_setup_timeout config).1
      < o.setup.bitcoin.dur + o.setup.titan.dur) := by omega
  have h3 : ¬ ((TestRunner.effective_setup_timeout config).1
      < o.setup.bitcoin.dur + o.setup.titan.dur + o.setup.validator.dur) := by omega
  unfold TestRunner.run_with_config TestRunner.setup_with_timeout TestRunner.setup_internal
    TestRunner.teardown
  simp [h1, h2, h3, hb, ht, hv, hsv, hst, hsb]

/-- A run oracle for the fully successful scenario. -/
def runOracleAllOk : RunOracle where
  setup :=
    { bitcoin := { ok := true, dur := 5 }, titan := { ok := true, dur := 5 },
      validator := { ok := true, dur := 5 } }
  test := { ok := true, dur := 10 }
  shutdown := { validator := true, titan := true, bitcoin := true }

/-- Witness for C8: the fully successful run under the default config reports success
    and shuts the handles down in the order validator, titan, bitcoin. -/
theorem teardown_reverse_order_full_run_witness :
    (TestRunner.run_with_config TestRunnerConfig.new runOracleAllOk).shutdownAttempts
        = [Svc.validator, Svc.titan, Svc.bitcoin]
    ∧ (TestRunner.run_with_config TestRunnerConfig.new runOracleAllOk).outcome
        = RunOutcome.success := by
  have h := teardown_reverse_order_full_run TestRunnerConfig.new runOracleAllOk
    rfl rfl rfl (by decide) rfl rfl rfl
  exact ⟨h.1, h.2.mpr (by decide)⟩

/-- C10: for every configuration, the `startup_timeout` handed to each of the three
    container launchers is the caller-supplied `setup_timeout` verbatim — no clamping
    — while the outer setup region's effective timeout never exceeds
    `MAX_SETUP_TIMEOUT`. -/
theorem container_startup_timeout_unclamped (config : TestRunnerConfig) :
    (BitcoinContainerConfig.fromTestRunnerConfig config).startup_timeout
        = config.setup_timeout
    ∧ (TitanContainerConfig.fromTestRunnerConfig config).startup_timeout
        = config.setup_timeout
    ∧ (LocalValidatorContainerConfig.fromTestRunnerConfig config).startup_timeout
        = config.setup_timeout
    ∧ (TestRunner.effective_setup_timeout config).1 ≤ MAX_SETUP_TIMEOUT := by
  refine ⟨rfl, rfl, rfl, ?_⟩
  unfold TestRunner.effective_setup_timeout
  split <;> omega

/-- Witness for C10: a requested 500 s setup budget reaches the bitcoin launcher
    unchanged even though the outer setup region is clamped to 120 s. -/
theorem container_startup_timeout_unclamped_witness :
    (BitcoinContainerConfig.fromTestRunnerConfig
        { TestRunnerConfig.new with setup_timeout := 500 }).startup_timeout = 500
    ∧ (TestRunner.effective_setup_timeout
        { TestRunnerConfig.new with setup_timeout := 500 }).1 = 120 := by
  have h := container_startup_timeout_unclamped { TestRunnerConfig.new with setup_timeout := 500 }
  exact ⟨h.1, by decide⟩

/-- Witness for C6's amended claim: in the fully successful run under the default
    config, the bitcoin slot is populated and teardown completes, attempting exactly
    the populated slots. -/
theorem slots_reflect_started_services_witness :
    (TestRunner.setup_with_timeout TestRunnerConfig.new runOracleAllOk.setup
        RunnerState.initial).1.bitcoin_container = true
    ∧ TestRunner.teardown
        (TestRunner.setup_with_timeout TestRunnerConfig.new runOracleAllOk.setup
          RunnerState.initial).1 runOracleAllOk.shutdown
        = (TeardownOutcome.completed,
            populatedSlots (TestRunner.setup_with_timeout TestRunnerConfig.new
              runOracleAllOk.setup RunnerState.initial).1) := by
  have h := slots_reflect_started_services TestRunnerConfig.new runOracleAllOk.setup
    runOracleAllOk.shutdown rfl rfl rfl
  exact ⟨h.1.mpr ⟨rfl, by decide⟩, h.2.2.2⟩
